import Mathlib

/-!
Shallow embedding of `packages/client/logic/recording.ts` (slidev recording
logic). The module-level reactive refs (`currentCamera`, `currentMic`,
`recordCamera`, `recordingName`) and the refs created inside `useRecording`
(`recording`, `showAvatar`, `recorderCamera`, `recorderSlides`,
`streamCamera`, `streamSlides`) are gathered in one explicit state record.
Asynchronous platform calls (`showSaveFilePicker`, `ensurePermissions`,
`getUserMedia`, `getDisplayMedia`, writable-stream creation) are modelled by
an environment that decides their success and by an event trace recording
the calls in program order. The engine-confirmed stop callbacks passed to
`RecordRTC.stopRecording` are modelled as separate steps gated by pending
flags, since they run asynchronously after `stopRecording` returns.
-/

set_option autoImplicit false

namespace Recording

/-- A media track: identity, kind (audio or video) and the device it came
from (`"screen"` for the display-capture track). -/
structure Track where
  id : Nat
  isAudio : Bool
  deviceId : String
deriving DecidableEq

/-- A media stream is its list of tracks. -/
structure MediaStream where
  tracks : List Track
deriving DecidableEq

/-- A RecordRTC recorder handle, wrapping the stream it records. -/
structure Recorder where
  stream : MediaStream
deriving DecidableEq

/-- An enumerated device as used by `useDevicesList.onUpdated`. -/
structure Device where
  deviceId : String
deriving DecidableEq

/-- The asynchronous platform calls the module performs, in program order.
`getUserMedia`'s arguments are the video and audio constraints: `none`
models the literal `false` constraint, `some d` models `\x7b deviceId: d \x7d`.
`setRecordingFlag` marks the final `recording.value = true` write of
`startRecording`. -/
inductive Event where
  | getFileHandle (name : String)
  | ensurePermissions
  | getUserMedia (video : Option String) (audio : Option String)
  | getDisplayMedia
  | createWritable
  | recorderStart (camera : Bool)
  | setRecordingFlag
deriving DecidableEq

/-- The fields of a JS `Date` that `getFilename` reads. `month` is 0-based,
as returned by `Date.getMonth()`. -/
structure DateParts where
  month : Nat
  day : Nat
  hour : Nat
  minute : Nat
deriving DecidableEq

/-- Outcome of the fallible platform calls, plus the current date. -/
structure Env where
  userMediaFails : Bool
  displayMediaFails : Bool
  saveFileFails : Bool
  now : DateParts
deriving DecidableEq

/-- The whole mutable state of the module: the module-level selection refs
and the refs of the `useRecording` session. `pendingStopCamera` /
`pendingStopSlides` record that `stopRecording` was called on the
corresponding recorder and its engine callback has not run yet.
`stoppedTracks` collects the ids of all tracks on which `.stop()` was
called; `nextTrackId` supplies fresh track ids for acquisitions. -/
structure SessionState where
  recording : Bool
  showAvatar : Bool
  recorderCamera : Option Recorder
  recorderSlides : Option Recorder
  streamCamera : Option MediaStream
  streamSlides : Option MediaStream
  currentCamera : String
  currentMic : String
  recordCamera : Bool
  recordingName : String
  pendingStopCamera : Bool
  pendingStopSlides : Bool
  stoppedTracks : List Nat
  nextTrackId : Nat
deriving DecidableEq

/-- Result of one operation: the new state, the trace of platform calls it
made, and whether it ended in a thrown/rejected error. -/
structure StepOut where
  s : SessionState
  trace : List Event
  err : Bool
deriving DecidableEq

/-- JS `isTruthy` restricted to strings: the only falsy string is `""`
(an omitted argument is modelled by `""`, equally falsy). -/
def isTruthy (s : String) : Bool :=
  !s.isEmpty

/-- `padStart(2, '0')` applied to the decimal representation of a number. -/
def padTwo (v : Nat) : String :=
  if (toString v).length < 2 then "0" ++ toString v else toString v

/-- `getFilename` from the source: joins the media kind, the recording name
and the `MMDD-HHMM` timestamp with `-`, dropping falsy components, and
appends `.webm`. The module-level `recordingName` ref and the current date
are passed explicitly. -/
def getFilename (media : String) (name : String) (d : DateParts) : String :=
  let date := padTwo (d.month + 1) ++ padTwo d.day ++ "-" ++ padTwo d.hour ++ padTwo d.minute
  String.intercalate "-" (([media, name, date]).filter (fun c => isTruthy c)) ++ ".webm"

/-- The `useDevicesList.onUpdated` handler as a pure function from the
enumerated lists and the current selections to the new selections.
`cameras.value[0]?.deviceId || 'default'` yields `"default"` both when the
list is empty and when the first device id is the empty string (falsy). -/
def onUpdated (cams mics : List Device) (cam mic : String) : String × String :=
  let cam' :=
    if cam ≠ "none" ∧ (cams.find? (fun i => i.deviceId = cam)).isNone then
      match cams.head? with
      | some d => if d.deviceId = "" then "default" else d.deviceId
      | none => "default"
    else cam
  let mic' :=
    if mic ≠ "none" ∧ (mics.find? (fun i => i.deviceId = mic)).isNone then
      match mics.head? with
      | some d => if d.deviceId = "" then "default" else d.deviceId
      | none => "default"
    else mic
  (cam', mic')

/-- `closeStream` on the camera ref: stop and detach every track, then
clear the ref; no-op when the ref is already unset. -/
def closeCameraStream (s : SessionState) : SessionState :=
  match s.streamCamera with
  | none => s
  | some st =>
    { s with streamCamera := none
             stoppedTracks := s.stoppedTracks ++ st.tracks.map (fun t => t.id) }

/-- `closeStream` on the slides/screen ref. -/
def closeSlidesStream (s : SessionState) : SessionState :=
  match s.streamSlides with
  | none => s
  | some st =>
    { s with streamSlides := none
             stoppedTracks := s.stoppedTracks ++ st.tracks.map (fun t => t.id) }

/-- `startCameraStream`: ensure device permissions, then, if no camera
stream exists, return when both selections are `"none"`, otherwise call
`getUserMedia` with the video constraint omitted when the camera selection
is `"none"` or camera recording is disabled, and the audio constraint
omitted when the microphone selection is `"none"`. `getUserMedia` rejects
when the environment says so or when both constraints are `false`. -/
def startCameraStream (env : Env) (s : SessionState) : StepOut :=
  match s.streamCamera with
  | some _ => ⟨s, [Event.ensurePermissions], false⟩
  | none =>
    if s.currentCamera = "none" ∧ s.currentMic = "none" then
      ⟨s, [Event.ensurePermissions], false⟩
    else
      let video : Option String :=
        if s.currentCamera = "none" ∨ ¬(s.recordCamera = true) then none
        else some s.currentCamera
      let audio : Option String :=
        if s.currentMic = "none" then none else some s.currentMic
      let tr := [Event.ensurePermissions, Event.getUserMedia video audio]
      if env.userMediaFails ∨ (video = none ∧ audio = none) then
        ⟨s, tr, true⟩
      else
        let vts : List Track :=
          match video with
          | some d => [⟨s.nextTrackId, false, d⟩]
          | none => []
        let ats : List Track :=
          match audio with
          | some d => [⟨s.nextTrackId + vts.length, true, d⟩]
          | none => []
        ⟨{ s with streamCamera := some ⟨vts ++ ats⟩
                  nextTrackId := s.nextTrackId + vts.length + ats.length },
          tr, false⟩

/-- `toggleAvatar`: no-op when the selected camera is `"none"`; when the
preview is showing, hide it and release the camera stream unless recording;
otherwise acquire the camera stream and show the preview if a stream is
present afterwards. -/
def toggleAvatar (env : Env) (s : SessionState) : StepOut :=
  if s.currentCamera = "none" then ⟨s, [], false⟩
  else if s.showAvatar then
    let s1 := { s with showAvatar := false }
    let s2 := if ¬s1.recording then closeCameraStream s1 else s1
    ⟨s2, [], false⟩
  else
    let r := startCameraStream env s
    if r.err then ⟨r.s, r.trace, true⟩
    else
      match r.s.streamCamera with
      | some _ => ⟨{ r.s with showAvatar := true }, r.trace, false⟩
      | none => ⟨r.s, r.trace, false⟩

/-- The `watch(currentCamera)` handler, run on a state whose
`currentCamera` already holds the new value `v`: release the stream when
`v = "none"`; otherwise do nothing while recording, and restart (close then
reacquire) only when a stream currently exists. -/
def watchCamera (env : Env) (s : SessionState) (v : String) : StepOut :=
  if v = "none" then ⟨closeCameraStream s, [], false⟩
  else if s.recording then ⟨s, [], false⟩
  else
    match s.streamCamera with
    | some _ => startCameraStream env (closeCameraStream s)
    | none => ⟨s, [], false⟩

/-- Assigning `currentCamera.value := v`: the watcher fires only when the
value actually changes. -/
def setCamera (env : Env) (s : SessionState) (v : String) : StepOut :=
  if v = s.currentCamera then ⟨s, [], false⟩
  else watchCamera env { s with currentCamera := v } v

/-- The tail of `startRecording` after the display stream was granted, on
the state `s1` left by `startCameraStream`: install the screen stream (one
fresh display track), attach the camera audio track (the first audio track
of the camera stream) to it, build and start the camera recorder when
camera recording is enabled and a camera stream exists, build and start
the screen recorder, and set the recording flag. Returns the new state and
the events from the display grant onwards. -/
def finishStartRecording (s1 : SessionState) : SessionState × List Event :=
  let screenTrack : Track := ⟨s1.nextTrackId, false, "screen"⟩
  let s2 := { s1 with nextTrackId := s1.nextTrackId + 1 }
  let slidesTracks : List Track :=
    match s2.streamCamera with
    | some cs =>
      match cs.tracks.find? (fun t => t.isAudio) with
      | some a' => [screenTrack, a']
      | none => [screenTrack]
    | none => [screenTrack]
  let s3 := { s2 with streamSlides := some ⟨slidesTracks⟩ }
  let camRec : Bool := s3.streamCamera.isSome ∧ s3.recordCamera
  let s4 :=
    if camRec then
      { s3 with recorderCamera := s3.streamCamera.map (fun cs => ⟨cs⟩) }
    else s3
  let t5 : List Event :=
    if camRec then [Event.createWritable, Event.recorderStart true] else []
  let s5 := { s4 with recorderSlides := some ⟨⟨slidesTracks⟩⟩ }
  ({ s5 with recording := true },
    t5 ++ [Event.createWritable, Event.recorderStart false, Event.setRecordingFlag])

/-- The function `startRecording`: request the save-file handles first
(camera handle only when camera recording is enabled), then permissions,
then the camera stream, then display capture, then the recorder setup of
`finishStartRecording`. Each fallible step propagates its rejection. -/
def startRecording (env : Env) (s : SessionState) : StepOut :=
  let camName := getFilename "camera" s.recordingName env.now
  let scrName := getFilename "screen" s.recordingName env.now
  let t1 : List Event := if s.recordCamera then [Event.getFileHandle camName] else []
  if s.recordCamera ∧ env.saveFileFails then ⟨s, t1, true⟩
  else
    let t2 := t1 ++ [Event.getFileHandle scrName]
    if env.saveFileFails then ⟨s, t2, true⟩
    else
      let r1 := startCameraStream env s
      let t3 := t2 ++ r1.trace
      if r1.err then ⟨r1.s, t3, true⟩
      else
        let t4 := t3 ++ [Event.getDisplayMedia]
        if env.displayMediaFails then ⟨r1.s, t4, true⟩
        else
          let fin := finishStartRecording r1.s
          ⟨fin.1, t4 ++ fin.2, false⟩

/-- `stopRecording`: clear the recording flag synchronously and ask each
existing recorder's engine to stop; the engine callbacks run later and are
modelled by the pending flags plus the two callback steps below. -/
def stopRecording (s : SessionState) : SessionState :=
  { s with recording := false
           pendingStopCamera := s.pendingStopCamera || s.recorderCamera.isSome
           pendingStopSlides := s.pendingStopSlides || s.recorderSlides.isSome }

/-- The engine-confirmed stop callback of the camera recorder: clear the
recorder reference and, unless an avatar preview is showing, release the
camera stream. -/
def cameraStopCb (s : SessionState) : SessionState :=
  if s.pendingStopCamera then
    let s1 := { s with pendingStopCamera := false, recorderCamera := none }
    if s1.showAvatar then s1 else closeCameraStream s1
  else s

/-- The engine-confirmed stop callback of the screen recorder: release the
screen stream, then clear the recorder reference. -/
def slidesStopCb (s : SessionState) : SessionState :=
  if s.pendingStopSlides then
    let s1 := closeSlidesStream { s with pendingStopSlides := false }
    { s1 with recorderSlides := none }
  else s

/-- Recognises the save-file destination requests among the events. -/
def isFileHandleEv : Event → Bool
  | Event.getFileHandle _ => true
  | _ => false

/-- Recognises the other asynchronous platform calls named by the spec:
permission request, camera stream acquisition, display stream
acquisition. -/
def isPlatformEv : Event → Bool
  | Event.ensurePermissions => true
  | Event.getUserMedia _ _ => true
  | Event.getDisplayMedia => true
  | _ => false

/-- Holds of a trace in which no save-file request occurs after any of the
other asynchronous platform calls. -/
def noFileHandleAfterPlatform : List Event → Bool
  | [] => true
  | e :: rest =>
    ((!isPlatformEv e) || rest.all (fun x => !isFileHandleEv x)) &&
      noFileHandleAfterPlatform rest

/-- The operations available to the outside world: the members returned by
`useRecording`, assignments to the module-level selection refs (with the
camera watcher), the device-list update notification (whose reassignment of
`currentCamera` also fires the watcher when the value changes), and the two
asynchronous engine stop callbacks. -/
inductive Op where
  | toggleAvatar
  | setCamera (v : String)
  | setMic (v : String)
  | setRecordCamera (b : Bool)
  | setRecordingName (n : String)
  | devicesUpdated (cams mics : List Device)
  | startRecording
  | stopRecording
  | cameraStopCb
  | slidesStopCb
deriving DecidableEq

/-- One step of the session, discarding traces and error outcomes (a thrown
operation still leaves the state it reached). -/
def step (env : Env) (s : SessionState) : Op → SessionState
  | Op.toggleAvatar => (toggleAvatar env s).s
  | Op.setCamera v => (setCamera env s v).s
  | Op.setMic v => { s with currentMic := v }
  | Op.setRecordCamera b => { s with recordCamera := b }
  | Op.setRecordingName n => { s with recordingName := n }
  | Op.devicesUpdated cams mics =>
    let p := onUpdated cams mics s.currentCamera s.currentMic
    let s1 := { s with currentMic := p.2 }
    if p.1 = s1.currentCamera then s1
    else (watchCamera env { s1 with currentCamera := p.1 } p.1).s
  | Op.startRecording => (startRecording env s).s
  | Op.stopRecording => stopRecording s
  | Op.cameraStopCb => cameraStopCb s
  | Op.slidesStopCb => slidesStopCb s

/-- Run a sequence of operations, each with its own environment. -/
def run (s : SessionState) : List (Op × Env) → SessionState
  | [] => s
  | oe :: rest => run (step oe.2 s oe.1) rest

/-- The state at module load: no streams, no recorders, not recording,
avatar hidden, `recordCamera` initialised to `true` and `recordingName` to
`""`; the initial selections come from the external state module and are
parameters. -/
def init (cam0 mic0 : String) : SessionState :=
  { recording := false
    showAvatar := false
    recorderCamera := none
    recorderSlides := none
    streamCamera := none
    streamSlides := none
    currentCamera := cam0
    currentMic := mic0
    recordCamera := true
    recordingName := ""
    pendingStopCamera := false
    pendingStopSlides := false
    stoppedTracks := []
    nextTrackId := 0 }

/-- A state is reachable when some operation sequence produces it from the
initial state, for some initial selections. -/
def Reachable (s : SessionState) : Prop :=
  ∃ cam0 mic0 ops, run (init cam0 mic0) ops = s

/-- An environment in which every platform call succeeds, at the date
2024-03-05 14:07 (month field 0-based). -/
def okEnv : Env :=
  { userMediaFails := false
    displayMediaFails := false
    saveFileFails := false
    now := ⟨2, 5, 14, 7⟩ }

/-- The slides half of the spec invariant: whenever the screen recorder
reference is set, the screen stream reference is set. -/
def slidesInv (s : SessionState) : Prop :=
  s.recorderSlides.isSome = true → s.streamSlides.isSome = true

theorem isEmpty_false (s : String) (h : s ≠ "") : s.isEmpty = false := by
  cases hb : s.isEmpty with
  | false => rfl
  | true => exact absurd ((String.isEmpty_iff s).mp hb) h

theorem padTwo_ne_empty (v : Nat) : padTwo v ≠ "" := by
  unfold padTwo
  have h0 := String.length_append "0" (toString v)
  have h01 : ("0" : String).length = 1 := rfl
  have he : ("" : String).length = 0 := rfl
  split
  · intro h
    have h2 := congrArg String.length h
    omega
  · intro h
    have h2 := congrArg String.length h
    omega

theorem dateStr_ne (a b c d : Nat) :
    padTwo a ++ padTwo b ++ "-" ++ padTwo c ++ padTwo d ≠ "" := by
  intro h
  have h2 := congrArg String.length h
  simp only [String.length_append] at h2
  have hm : ("-" : String).length = 1 := rfl
  have he : ("" : String).length = 0 := rfl
  omega

theorem joinParts (media name date : String) (hd : date ≠ "") :
    String.intercalate "-" (([media, name, date]).filter (fun c => isTruthy c)) =
      (if media = "" then "" else media ++ "-") ++
      (if name = "" then "" else name ++ "-") ++ date := by
  have hE : ("" : String).isEmpty = true := rfl
  have hD := isEmpty_false _ hd
  by_cases hm : media = "" <;> by_cases hn : name = ""
  · simp [hm, hn, isTruthy, List.filter, hE, hD, String.intercalate, String.intercalate.go,
      String.append_assoc]
  · have hN := isEmpty_false _ hn
    simp [hm, hn, isTruthy, List.filter, hE, hD, hN, String.intercalate, String.intercalate.go,
      String.append_assoc]
  · have hM := isEmpty_false _ hm
    simp [hm, hn, isTruthy, List.filter, hE, hD, hM, String.intercalate, String.intercalate.go,
      String.append_assoc]
  · have hM := isEmpty_false _ hm
    have hN := isEmpty_false _ hn
    simp [hm, hn, isTruthy, List.filter, hE, hD, hM, hN, String.intercalate, String.intercalate.go,
      String.append_assoc]

theorem scs_frame (env : Env) (s : SessionState) :
    (startCameraStream env s).s.recording = s.recording ∧
    (startCameraStream env s).s.showAvatar = s.showAvatar ∧
    (startCameraStream env s).s.recorderCamera = s.recorderCamera ∧
    (startCameraStream env s).s.recorderSlides = s.recorderSlides ∧
    (startCameraStream env s).s.streamSlides = s.streamSlides ∧
    (startCameraStream env s).s.pendingStopCamera = s.pendingStopCamera ∧
    (startCameraStream env s).s.pendingStopSlides = s.pendingStopSlides ∧
    (startCameraStream env s).s.stoppedTracks = s.stoppedTracks := by
  unfold startCameraStream
  by_cases hf : env.userMediaFails = true <;>
    cases hst : s.streamCamera <;> split_ifs <;> simp [hf]

theorem close_cam_slides (s : SessionState) :
    (closeCameraStream s).recorderSlides = s.recorderSlides ∧
    (closeCameraStream s).streamSlides = s.streamSlides := by
  unfold closeCameraStream
  cases hst : s.streamCamera <;> simp

theorem toggle_slides (env : Env) (s : SessionState) :
    (toggleAvatar env s).s.recorderSlides = s.recorderSlides ∧
    (toggleAvatar env s).s.streamSlides = s.streamSlides := by
  unfold toggleAvatar
  split_ifs
  all_goals try simp
  all_goals try (split_ifs <;> simp [close_cam_slides])
  all_goals
    cases hmc : (startCameraStream env s).s.streamCamera <;> split_ifs <;>
      simp [hmc, scs_frame env s]

theorem watch_slides (env : Env) (s : SessionState) (v : String) :
    (watchCamera env s v).s.recorderSlides = s.recorderSlides ∧
    (watchCamera env s v).s.streamSlides = s.streamSlides := by
  unfold watchCamera
  split_ifs
  · simp [close_cam_slides]
  · simp
  · cases hst : s.streamCamera <;> simp
    constructor
    · exact ((scs_frame env _).2.2.2.1).trans (close_cam_slides s).1
    · exact ((scs_frame env _).2.2.2.2.1).trans (close_cam_slides s).2

theorem camCb_slidesInv (s : SessionState) (h : slidesInv s) :
    slidesInv (cameraStopCb s) := by
  unfold slidesInv at *
  unfold cameraStopCb closeCameraStream
  split_ifs <;> cases hst : s.streamCamera <;> by_cases ha : s.showAvatar = true <;> simp_all

theorem slidesCb_slidesInv (s : SessionState) (h : slidesInv s) :
    slidesInv (slidesStopCb s) := by
  unfold slidesInv at *
  unfold slidesStopCb closeSlidesStream
  split_ifs <;> cases hst : s.streamSlides <;> simp_all

theorem startRec_slidesInv (env : Env) (s : SessionState) (h : slidesInv s) :
    slidesInv (startRecording env s).s := by
  unfold slidesInv at *
  unfold startRecording finishStartRecording startCameraStream
  cases hst : s.streamCamera with
  | some st0 =>
    cases hrc : s.recordCamera <;>
      by_cases hsf : env.saveFileFails = true <;>
      by_cases hdm : env.displayMediaFails = true <;>
      cases hfa : st0.tracks.find? (fun t => t.isAudio) <;>
      simp_all
  | none =>
    by_cases hcn : s.currentCamera = "none" <;>
      by_cases hmn : s.currentMic = "none" <;>
      cases hrc : s.recordCamera <;>
      by_cases hsf : env.saveFileFails = true <;>
      by_cases hum : env.userMediaFails = true <;>
      by_cases hdm : env.displayMediaFails = true <;>
      simp_all

theorem step_slidesInv (env : Env) (op : Op) (s : SessionState) (h : slidesInv s) :
    slidesInv (step env s op) := by
  cases op with
  | toggleAvatar =>
    intro hr
    rw [step] at *
    rw [(toggle_slides env s).1] at hr
    rw [(toggle_slides env s).2]
    exact h hr
  | setCamera v =>
    intro hr
    rw [step] at *
    rw [setCamera] at *
    split_ifs at * with hc
    · exact h hr
    · rw [(watch_slides env _ v).1] at hr
      rw [(watch_slides env _ v).2]
      exact h hr
  | setMic v => exact h
  | setRecordCamera b => exact h
  | setRecordingName n => exact h
  | devicesUpdated cams mics =>
    intro hr
    rw [step] at *
    simp only [] at *
    split_ifs at * with hc
    · exact h hr
    · rw [(watch_slides env _ _).1] at hr
      rw [(watch_slides env _ _).2]
      exact h hr
  | startRecording =>
    rw [step]
    exact startRec_slidesInv env s h
  | stopRecording =>
    intro hr
    rw [step] at *
    rw [stopRecording] at *
    exact h hr
  | cameraStopCb =>
    rw [step]
    exact camCb_slidesInv s h
  | slidesStopCb =>
    rw [step]
    exact slidesCb_slidesInv s h

theorem run_slidesInv (ops : List (Op × Env)) (s : SessionState) (h : slidesInv s) :
    slidesInv (run s ops) := by
  induction ops generalizing s with
  | nil => exact h
  | cons oe rest ih =>
    rw [run]
    exact ih _ (step_slidesInv oe.2 oe.1 s h)

theorem finish_shape (s1 : SessionState) :
    (finishStartRecording s1).1.showAvatar = s1.showAvatar ∧
    (finishStartRecording s1).1.pendingStopCamera = s1.pendingStopCamera ∧
    (finishStartRecording s1).1.pendingStopSlides = s1.pendingStopSlides ∧
    (finishStartRecording s1).1.stoppedTracks = s1.stoppedTracks ∧
    (finishStartRecording s1).1.streamCamera = s1.streamCamera ∧
    (finishStartRecording s1).1.recording = true ∧
    (finishStartRecording s1).1.recorderSlides.isSome = true ∧
    (finishStartRecording s1).1.streamSlides.isSome = true ∧
    ((finishStartRecording s1).1.recorderCamera = s1.recorderCamera ∨
      (finishStartRecording s1).1.recorderCamera.isSome = true) := by
  unfold finishStartRecording
  cases hsc : s1.streamCamera <;> dsimp only <;> split_ifs <;> simp_all

theorem startRec_ok_eq (env : Env) (s : SessionState)
    (hok : (startRecording env s).err = false) :
    (startRecording env s).s = (finishStartRecording (startCameraStream env s).s).1 := by
  unfold startRecording at *
  dsimp only at *
  by_cases he : (startCameraStream env s).err = true <;> split_ifs at * <;> simp_all

theorem camCb_frame (s : SessionState) :
    (cameraStopCb s).streamSlides = s.streamSlides ∧
    (cameraStopCb s).recorderSlides = s.recorderSlides ∧
    (cameraStopCb s).pendingStopSlides = s.pendingStopSlides ∧
    (cameraStopCb s).recording = s.recording ∧
    (cameraStopCb s).showAvatar = s.showAvatar ∧
    (∀ x ∈ s.stoppedTracks, x ∈ (cameraStopCb s).stoppedTracks) := by
  unfold cameraStopCb closeCameraStream
  split_ifs <;> cases hst : s.streamCamera <;>
    by_cases ha : s.showAvatar = true <;> simp_all

theorem camCb_recorder (s : SessionState) :
    (s.pendingStopCamera = true → (cameraStopCb s).recorderCamera = none) ∧
    (s.pendingStopCamera = false → cameraStopCb s = s) := by
  unfold cameraStopCb closeCameraStream
  split_ifs <;> cases hst : s.streamCamera <;>
    by_cases ha : s.showAvatar = true <;> simp_all

theorem camCb_closes (s : SessionState)
    (hp : s.pendingStopCamera = true) (ha : s.showAvatar = false) :
    (cameraStopCb s).streamCamera = none ∧
    (∀ st, s.streamCamera = some st →
      ∀ t ∈ st.tracks, t.id ∈ (cameraStopCb s).stoppedTracks) := by
  unfold cameraStopCb closeCameraStream
  cases hst : s.streamCamera <;> simp_all
  exact fun t ht => Or.inr ⟨t, ht, rfl⟩

theorem slidesCb_acts (s : SessionState) (hp : s.pendingStopSlides = true) :
    (slidesStopCb s).streamSlides = none ∧
    (slidesStopCb s).recorderSlides = none ∧
    (∀ st, s.streamSlides = some st →
      ∀ t ∈ st.tracks, t.id ∈ (slidesStopCb s).stoppedTracks) ∧
    (slidesStopCb s).streamCamera = s.streamCamera ∧
    (slidesStopCb s).recorderCamera = s.recorderCamera ∧
    (∀ x ∈ s.stoppedTracks, x ∈ (slidesStopCb s).stoppedTracks) := by
  unfold slidesStopCb closeSlidesStream
  cases hst : s.streamSlides <;> simp_all
  exact fun t ht => Or.inr ⟨t, ht, rfl⟩

/-- C1 counterexample: with the enumerated camera list holding exactly one
device whose device id is the empty string, and a selected camera id that
is not in the list and not the `"none"` sentinel, the handler assigns the
sentinel `"default"`, not the first listed camera's device id (which is
`""`): the JS fallback `cameras.value[0]?.deviceId || 'default'` treats an
empty first device id as falsy. -/
theorem C1_counterexample :
    ("x" : String) ≠ "none" ∧
    (∀ d ∈ [(⟨""⟩ : Device)], d.deviceId ≠ "x") ∧
    ([(⟨""⟩ : Device)]).head? = some ⟨""⟩ ∧
    (onUpdated [⟨""⟩] [] "x" "m").1 ≠ "" ∧
    (onUpdated [⟨""⟩] [] "x" "m").1 = "default" := by
  refine ⟨by decide, ?_, rfl, by decide, by decide⟩
  intro d hd
  simp at hd
  subst hd
  decide

/-- C1 (amended): on a device-list update, a selection equal to `"none"`
is never changed, a selection present in the list is kept, and a non-`"none"`
selection absent from the list becomes the first listed device id when that
id is non-empty, and the sentinel `"default"` when the list is empty or the
first device id is the empty string; the camera and microphone selections
follow this rule independently. -/
theorem C1_amended (cams mics : List Device) (cam mic : String) :
    (cam = "none" → (onUpdated cams mics cam mic).1 = cam) ∧
    ((∃ d ∈ cams, d.deviceId = cam) → (onUpdated cams mics cam mic).1 = cam) ∧
    (cam ≠ "none" → (∀ d ∈ cams, d.deviceId ≠ cam) → cams = [] →
      (onUpdated cams mics cam mic).1 = "default") ∧
    (cam ≠ "none" → (∀ d ∈ cams, d.deviceId ≠ cam) → ∀ d rest, cams = d :: rest →
      (onUpdated cams mics cam mic).1 =
        (if d.deviceId = "" then "default" else d.deviceId)) ∧
    (mic = "none" → (onUpdated cams mics cam mic).2 = mic) ∧
    ((∃ d ∈ mics, d.deviceId = mic) → (onUpdated cams mics cam mic).2 = mic) ∧
    (mic ≠ "none" → (∀ d ∈ mics, d.deviceId ≠ mic) → mics = [] →
      (onUpdated cams mics cam mic).2 = "default") ∧
    (mic ≠ "none" → (∀ d ∈ mics, d.deviceId ≠ mic) → ∀ d rest, mics = d :: rest →
      (onUpdated cams mics cam mic).2 =
        (if d.deviceId = "" then "default" else d.deviceId)) := by
  unfold onUpdated
  refine ⟨?_, ?_, ?_, ?_, ?_, ?_, ?_, ?_⟩
  · intro h; simp [h]
  · intro h
    have hf : (cams.find? (fun i => i.deviceId = cam)).isSome := by
      obtain ⟨d, hd, he⟩ := h
      rw [List.find?_isSome]
      exact ⟨d, hd, by simp [he]⟩
    simp only []
    split
    · rename_i hcond
      obtain ⟨h1, h2⟩ := hcond
      rw [Option.isNone_iff_eq_none] at h2
      rw [h2] at hf
      simp at hf
    · rfl
  · intro h1 h2 h3
    subst h3
    simp [h1]
  · intro h1 h2 d rest h3
    subst h3
    have hn : ((d :: rest).find? (fun i => i.deviceId = cam)) = none := by
      rw [List.find?_eq_none]
      intro x hx
      simp [h2 x hx]
    simp [h1, hn]
  · intro h; simp [h]
  · intro h
    have hf : (mics.find? (fun i => i.deviceId = mic)).isSome := by
      obtain ⟨d, hd, he⟩ := h
      rw [List.find?_isSome]
      exact ⟨d, hd, by simp [he]⟩
    simp only []
    split
    · rename_i hcond
      obtain ⟨h1, h2⟩ := hcond
      rw [Option.isNone_iff_eq_none] at h2
      rw [h2] at hf
      simp at hf
    · rfl
  · intro h1 h2 h3
    subst h3
    simp [h1]
  · intro h1 h2 d rest h3
    subst h3
    have hn : ((d :: rest).find? (fun i => i.deviceId = mic)) = none := by
      rw [List.find?_eq_none]
      intro x hx
      simp [h2 x hx]
    simp [h1, hn]

/-- C1 witness: a non-empty first device id is adopted when the previous
camera selection disappears, and a microphone selection present in the list
is kept. -/
theorem C1_witness :
    (onUpdated [⟨"a"⟩] [] "x" "m").1 = "a" ∧
    (onUpdated [] [⟨"m"⟩] "x" "m").2 = "m" := by
  constructor
  · have h := (C1_amended [⟨"a"⟩] [] "x" "m").2.2.2.1 (by decide) (by decide) ⟨"a"⟩ [] rfl
    simpa using h
  · exact (C1_amended [] [⟨"m"⟩] "x" "m").2.2.2.2.2.1 ⟨⟨"m"⟩, by decide, rfl⟩

/-- C2 counterexample: start a recording (which creates a camera recorder
over a camera stream), then change the camera selection to `"none"`. The
selection watcher releases the camera stream unconditionally, while the
camera recorder reference stays set: the camera recorder outlives its
stream in a reachable state. -/
theorem C2_counterexample :
    (run (init "cam" "mic")
      [(Op.startRecording, okEnv), (Op.setCamera "none", okEnv)]).recorderCamera.isSome = true ∧
    (run (init "cam" "mic")
      [(Op.startRecording, okEnv), (Op.setCamera "none", okEnv)]).streamCamera = none ∧
    Reachable (run (init "cam" "mic") [(Op.startRecording, okEnv), (Op.setCamera "none", okEnv)]) := by
  refine ⟨by decide, by decide, ⟨"cam", "mic", _, rfl⟩⟩

/-- C2 (amended): in every reachable state, whenever the screen recorder
reference is set, the screen stream reference is also set. The analogous
property for the camera recorder does not hold: the camera recorder can
outlive its stream, for example when the camera selection changes to
`"none"` during a recording. -/
theorem C2_amended (s : SessionState) (h : Reachable s) :
    s.recorderSlides.isSome = true → s.streamSlides.isSome = true := by
  obtain ⟨cam0, mic0, ops, rfl⟩ := h
  exact run_slidesInv ops _ (fun hh => by simp [init] at hh)

/-- C2 witness: straight after a successful recording start, the screen
recorder is set and so is the screen stream. -/
theorem C2_witness :
    (run (init "cw" "mw") [(Op.startRecording, okEnv)]).streamSlides.isSome = true :=
  C2_amended _ ⟨"cw", "mw", [(Op.startRecording, okEnv)], rfl⟩ (by decide)

/-- C3 counterexample: with no camera stream held and no recording in
progress, changing the camera selection from `"c"` to `"x"` performs no
platform call at all and leaves the camera stream unset: the stream is not
reacquired with the new device, contrary to the claim's unconditional
release-and-reacquire reading. -/
theorem C3_counterexample :
    (setCamera okEnv (init "c" "m") "x").trace = [] ∧
    (setCamera okEnv (init "c" "m") "x").s.streamCamera = none ∧
    (setCamera okEnv (init "c" "m") "x").s.currentCamera = "x" ∧
    (init "c" "m").recording = false := by
  refine ⟨by decide, by decide, by decide, rfl⟩

/-- C3 (amended): when the camera selection changes to `"none"`, the camera
stream is released immediately and unconditionally; when it changes to a
non-`"none"` value while recording, nothing happens beyond the selection
update; when it changes to a non-`"none"` value while not recording, the
camera stream is released and reacquired only if a camera stream currently
exists (and the reacquired stream carries a video track for the new device
when camera recording is enabled and acquisition succeeds); if no camera
stream exists, nothing happens beyond the selection update. -/
theorem C3_amended (s : SessionState) (env : Env) (v : String) (hch : v ≠ s.currentCamera) :
    (v = "none" →
      (setCamera env s v).s = closeCameraStream { s with currentCamera := v } ∧
      (setCamera env s v).trace = [] ∧ (setCamera env s v).err = false) ∧
    (v ≠ "none" → s.recording = true →
      (setCamera env s v).s = { s with currentCamera := v } ∧
      (setCamera env s v).trace = []) ∧
    (v ≠ "none" → s.recording = false → s.streamCamera = none →
      (setCamera env s v).s = { s with currentCamera := v } ∧
      (setCamera env s v).trace = []) ∧
    (v ≠ "none" → s.recording = false → ∀ st, s.streamCamera = some st →
      setCamera env s v = startCameraStream env (closeCameraStream { s with currentCamera := v }) ∧
      (env.userMediaFails = false → s.recordCamera = true →
        ∃ ts, (setCamera env s v).s.streamCamera = some ts ∧
          ∃ t ∈ ts.tracks, t.isAudio = false ∧ t.deviceId = v)) := by
  unfold setCamera watchCamera
  refine ⟨?_, ?_, ?_, ?_⟩
  · intro hv
    subst hv
    simp [hch]
  · intro hv hr
    simp [hch, hv, hr]
  · intro hv hr hst
    simp [hch, hv, hr, hst]
  · intro hv hr st hst
    constructor
    · simp [hch, hv, hr, hst]
    · intro hf hrc
      simp only [if_neg hch, if_neg hv, hr]
      simp only [Bool.false_eq_true, if_false, hst]
      unfold closeCameraStream startCameraStream
      simp [hst, hv, hrc, hf]

/-- C3 witness: changing the selection to `"none"` on a session that holds
a camera stream releases that stream. -/
theorem C3_witness :
    (setCamera okEnv
      { init "c" "m" with streamCamera := some ⟨[⟨5, false, "c"⟩]⟩, nextTrackId := 6 } "none").s =
      closeCameraStream
        { init "c" "m" with
            streamCamera := some ⟨[⟨5, false, "c"⟩]⟩, nextTrackId := 6, currentCamera := "none" } :=
  (C3_amended
    { init "c" "m" with streamCamera := some ⟨[⟨5, false, "c"⟩]⟩, nextTrackId := 6 }
    okEnv "none" (by decide)).1 rfl |>.1

/-- C4: the recording filename is the media kind, the recording name and
the zero-padded `MMDD-HHMM` timestamp joined with `-`, with empty
components dropped, followed by `.webm`; in particular
`getFilename "camera"` with recording name `Weekly` at 2024-03-05 14:07 is
`camera-Weekly-0305-1407.webm`, and `getFilename` with no media kind and an
empty recording name is `0305-1407.webm`. -/
theorem C4_filename :
    getFilename "camera" "Weekly" ⟨2, 5, 14, 7⟩ = "camera-Weekly-0305-1407.webm" ∧
    getFilename "" "" ⟨2, 5, 14, 7⟩ = "0305-1407.webm" ∧
    ∀ media name d, getFilename media name d =
      (if media = "" then "" else media ++ "-") ++
      (if name = "" then "" else name ++ "-") ++
      (padTwo (d.month + 1) ++ padTwo d.day ++ "-" ++ padTwo d.hour ++ padTwo d.minute) ++
      ".webm" := by
  refine ⟨by decide, by decide, ?_⟩
  intro media name d
  unfold getFilename
  dsimp only
  rw [joinParts _ _ _ (dateStr_ne (d.month + 1) d.day d.hour d.minute)]

/-- C5 counterexample: show the avatar preview, start a recording, stop it
and let both engine callbacks run. Both recorder references end up unset,
but the camera stream survives (the stop callback keeps it because the
avatar preview is showing) and its video track (id 0) is never stopped, so
not every track of both associated streams is stopped. -/
theorem C5_counterexample :
    (toggleAvatar okEnv (init "cam" "mic")).s.showAvatar = true ∧
    (startRecording okEnv (toggleAvatar okEnv (init "cam" "mic")).s).err = false ∧
    (slidesStopCb (cameraStopCb (stopRecording
      (startRecording okEnv (toggleAvatar okEnv (init "cam" "mic")).s).s))).recorderCamera = none ∧
    (slidesStopCb (cameraStopCb (stopRecording
      (startRecording okEnv (toggleAvatar okEnv (init "cam" "mic")).s).s))).recorderSlides = none ∧
    (slidesStopCb (cameraStopCb (stopRecording
      (startRecording okEnv (toggleAvatar okEnv (init "cam" "mic")).s).s))).streamCamera =
      some ⟨[⟨0, false, "cam"⟩, ⟨1, true, "mic"⟩]⟩ ∧
    ¬ (0 ∈ (slidesStopCb (cameraStopCb (stopRecording
      (startRecording okEnv (toggleAvatar okEnv (init "cam" "mic")).s).s))).stoppedTracks) := by
  decide

/-- C5 (amended): from a quiescent session (no recorder references, no
pending stop callbacks), a successful `startRecording` followed by
`stopRecording` clears the recording flag immediately, before the engine
callbacks run; once both callbacks have run, both recorder references are
unset, the screen stream is released with every one of its tracks stopped,
and, provided the avatar preview is hidden and a camera recorder was
actually started, the camera stream's tracks are stopped as well. -/
theorem C5_amended (s : SessionState) (env : Env)
    (hrc : s.recorderCamera = none) (hpc : s.pendingStopCamera = false)
    (hps : s.pendingStopSlides = false)
    (hok : (startRecording env s).err = false) :
    (stopRecording (startRecording env s).s).recording = false ∧
    (slidesStopCb (cameraStopCb (stopRecording (startRecording env s).s))).recorderCamera = none ∧
    (slidesStopCb (cameraStopCb (stopRecording (startRecording env s).s))).recorderSlides = none ∧
    (slidesStopCb (cameraStopCb (stopRecording (startRecording env s).s))).streamSlides = none ∧
    (∀ st, (startRecording env s).s.streamSlides = some st →
      ∀ t ∈ st.tracks,
        t.id ∈ (slidesStopCb (cameraStopCb (stopRecording (startRecording env s).s))).stoppedTracks) ∧
    (s.showAvatar = false → (startRecording env s).s.recorderCamera.isSome = true →
      (slidesStopCb (cameraStopCb (stopRecording (startRecording env s).s))).streamCamera = none ∧
      (∀ st, (startRecording env s).s.streamCamera = some st →
        ∀ t ∈ st.tracks,
          t.id ∈ (slidesStopCb (cameraStopCb (stopRecording (startRecording env s).s))).stoppedTracks)) := by
  have heq := startRec_ok_eq env s hok
  obtain ⟨f1, f2, f3, f4, f5, f6, f7, f8, f9⟩ := finish_shape (startCameraStream env s).s
  obtain ⟨g1, g2, g3, g4, g5, g6, g7, g8⟩ := scs_frame env s
  have hPc : (startRecording env s).s.pendingStopCamera = false := by
    rw [heq, f2, g6, hpc]
  have hPs : (startRecording env s).s.pendingStopSlides = false := by
    rw [heq, f3, g7, hps]
  have hRs : (startRecording env s).s.recorderSlides.isSome = true := by
    rw [heq]; exact f7
  have hRcD : (startRecording env s).s.recorderCamera = none ∨
      (startRecording env s).s.recorderCamera.isSome = true := by
    rcases f9 with h | h
    · left; rw [heq, h, g3, hrc]
    · right; rw [heq]; exact h
  have hs2rec : (stopRecording (startRecording env s).s).recording = false := by
    simp [stopRecording]
  have hs2ps : (stopRecording (startRecording env s).s).pendingStopSlides = true := by
    simp [stopRecording, hPs, hRs]
  have hs2pc : (stopRecording (startRecording env s).s).pendingStopCamera =
      (startRecording env s).s.recorderCamera.isSome := by
    simp [stopRecording, hPc]
  have hs2fields :
      (stopRecording (startRecording env s).s).streamCamera = (startRecording env s).s.streamCamera ∧
      (stopRecording (startRecording env s).s).streamSlides = (startRecording env s).s.streamSlides ∧
      (stopRecording (startRecording env s).s).recorderCamera = (startRecording env s).s.recorderCamera ∧
      (stopRecording (startRecording env s).s).showAvatar = (startRecording env s).s.showAvatar := by
    simp [stopRecording]
  obtain ⟨k2, k3, k4, k1⟩ := hs2fields
  obtain ⟨m1, m2, m3, m4, m5, m6⟩ := camCb_frame (stopRecording (startRecording env s).s)
  have hs3ps : (cameraStopCb (stopRecording (startRecording env s).s)).pendingStopSlides = true := by
    rw [m3, hs2ps]
  obtain ⟨n1, n2, n3, n4, n5, n6⟩ := slidesCb_acts _ hs3ps
  refine ⟨hs2rec, ?_, n2, n1, ?_, ?_⟩
  · rw [n5]
    rcases hRcD with h | h
    · have hpc2 : (stopRecording (startRecording env s).s).pendingStopCamera = false := by
        rw [hs2pc, h]; rfl
      rw [(camCb_recorder _).2 hpc2, k4, h]
    · have hpc2 : (stopRecording (startRecording env s).s).pendingStopCamera = true := by
        rw [hs2pc, h]
      exact (camCb_recorder _).1 hpc2
  · intro st hst t ht
    have hss : (cameraStopCb (stopRecording (startRecording env s).s)).streamSlides = some st := by
      rw [m1, k3, hst]
    exact n3 st hss t ht
  · intro hAv0 hbSome
    have hAv : (startRecording env s).s.showAvatar = false := by
      rw [heq, f1, g2, hAv0]
    have hk1 : (stopRecording (startRecording env s).s).showAvatar = false := by
      rw [k1, hAv]
    have hpc2 : (stopRecording (startRecording env s).s).pendingStopCamera = true := by
      rw [hs2pc, hbSome]
    obtain ⟨p1, p2⟩ := camCb_closes _ hpc2 hk1
    constructor
    · rw [n4, p1]
    · intro st hst t ht
      exact n6 _ (p2 st (by rw [k2, hst]) t ht)

/-- C5 witness: from a fresh session, start and stop a recording with every
platform call succeeding; the flag is cleared synchronously and the screen
stream ends up released. -/
theorem C5_witness :
    (stopRecording (startRecording okEnv (init "cw5" "mw5")).s).recording = false ∧
    (slidesStopCb (cameraStopCb (stopRecording
      (startRecording okEnv (init "cw5" "mw5")).s))).streamSlides = none := by
  have h := C5_amended (init "cw5" "mw5") okEnv rfl rfl rfl (by decide)
  exact ⟨h.1, h.2.2.2.1⟩

/-- C6: when both the camera and the microphone selections are `"none"`,
`startCameraStream` returns without error, changes nothing, performs no
media-capture acquisition call, and in particular leaves an unset camera
stream unset. -/
theorem C6_bothNone (s : SessionState) (env : Env)
    (hc : s.currentCamera = "none") (hm : s.currentMic = "none") :
    (startCameraStream env s).err = false ∧
    (startCameraStream env s).s = s ∧
    (∀ v a, Event.getUserMedia v a ∉ (startCameraStream env s).trace) ∧
    (s.streamCamera = none → (startCameraStream env s).s.streamCamera = none) := by
  unfold startCameraStream
  cases hst : s.streamCamera with
  | some st => simp [hst]
  | none => simp [hc, hm, hst]

/-- C6 witness: on the initial state with both selections `"none"`, the
call succeeds and the state is untouched. -/
theorem C6_witness :
    (startCameraStream okEnv (init "none" "none")).err = false ∧
    (startCameraStream okEnv (init "none" "none")).s = init "none" "none" := by
  have h := C6_bothNone (init "none" "none") okEnv rfl rfl
  exact ⟨h.1, h.2.1⟩

/-- C7: when a camera stream already exists, `startCameraStream` succeeds,
leaves the whole state unchanged, performs no media-capture acquisition
call, and calling it twice yields the same state as calling it once. -/
theorem C7_idempotent (s : SessionState) (env : Env) (st : MediaStream)
    (h : s.streamCamera = some st) :
    (startCameraStream env s).err = false ∧
    (startCameraStream env s).s = s ∧
    (∀ v a, Event.getUserMedia v a ∉ (startCameraStream env s).trace) ∧
    (startCameraStream env (startCameraStream env s).s).s = (startCameraStream env s).s := by
  unfold startCameraStream
  simp [h]

/-- C7 witness: with a held camera stream, the call changes nothing. -/
theorem C7_witness :
    (startCameraStream okEnv
      { init "c7" "m7" with streamCamera := some ⟨[⟨3, false, "c7"⟩]⟩, nextTrackId := 4 }).err = false ∧
    (startCameraStream okEnv
      { init "c7" "m7" with streamCamera := some ⟨[⟨3, false, "c7"⟩]⟩, nextTrackId := 4 }).s =
      { init "c7" "m7" with streamCamera := some ⟨[⟨3, false, "c7"⟩]⟩, nextTrackId := 4 } := by
  have h := C7_idempotent
    { init "c7" "m7" with streamCamera := some ⟨[⟨3, false, "c7"⟩]⟩, nextTrackId := 4 }
    okEnv ⟨[⟨3, false, "c7"⟩]⟩ rfl
  exact ⟨h.1, h.2.1⟩

/-- C8: from a non-recording state with the avatar hidden and a camera
selected, calling `toggleAvatar` twice leaves the avatar flag false and no
camera stream, with every track of the stream held after the first toggle
stopped; and `toggleAvatar` is a no-op when the selected camera is
`"none"`. -/
theorem C8_toggleTwice :
    (∀ (s : SessionState) (env : Env), s.recording = false → s.showAvatar = false →
      s.currentCamera ≠ "none" →
      (toggleAvatar env (toggleAvatar env s).s).s.showAvatar = false ∧
      (toggleAvatar env (toggleAvatar env s).s).s.streamCamera = none ∧
      (∀ st, (toggleAvatar env s).s.streamCamera = some st →
        ∀ t ∈ st.tracks, t.id ∈ (toggleAvatar env (toggleAvatar env s).s).s.stoppedTracks)) ∧
    (∀ (s : SessionState) (env : Env), s.currentCamera = "none" →
      toggleAvatar env s = ⟨s, [], false⟩) := by
  constructor
  · intro s env hr hAv hc
    cases hst : s.streamCamera with
    | some st0 =>
      unfold toggleAvatar startCameraStream closeCameraStream
      simp [hAv, hst, hc, hr]
      exact fun t ht => Or.inr ⟨t, ht, rfl⟩
    | none =>
      by_cases hf : env.userMediaFails = true <;>
        by_cases hrc : s.recordCamera = true <;>
        by_cases hmic : s.currentMic = "none" <;>
        · unfold toggleAvatar startCameraStream closeCameraStream
          simp [hAv, hst, hc, hr, hf, hrc, hmic]
          try exact fun t ht => Or.inr ⟨t, ht, rfl⟩
  · intro s env h
    unfold toggleAvatar
    simp [h]

/-- C8 witness: a show-then-hide pair from the fresh state leaves no
camera stream, and a toggle with camera `"none"` is the identity. -/
theorem C8_witness :
    (toggleAvatar okEnv (toggleAvatar okEnv (init "c8" "m8")).s).s.showAvatar = false ∧
    (toggleAvatar okEnv (toggleAvatar okEnv (init "c8" "m8")).s).s.streamCamera = none ∧
    toggleAvatar okEnv (init "none" "m8") = ⟨init "none" "m8", [], false⟩ := by
  have h1 := C8_toggleTwice.1 (init "c8" "m8") okEnv rfl rfl (by decide)
  exact ⟨h1.1, h1.2.1, C8_toggleTwice.2 (init "none" "m8") okEnv rfl⟩

/-- C9: in every execution of `startRecording`, no save-file destination
request occurs after any permission request, camera acquisition or display
acquisition; on success the requests come first (camera destination first
when camera recording is enabled, then the screen destination), the
recording flag is set as the very last step (the final trace event, after
every recorder start), and on failure the recording flag is untouched. -/
theorem C9_ordering (s : SessionState) (env : Env) :
    noFileHandleAfterPlatform (startRecording env s).trace = true ∧
    ((startRecording env s).err = false →
      (s.recordCamera = true →
        (startRecording env s).trace.take 2 =
          [Event.getFileHandle (getFilename "camera" s.recordingName env.now),
           Event.getFileHandle (getFilename "screen" s.recordingName env.now)]) ∧
      (s.recordCamera = false →
        (startRecording env s).trace.take 1 =
          [Event.getFileHandle (getFilename "screen" s.recordingName env.now)]) ∧
      (startRecording env s).trace.getLast? = some Event.setRecordingFlag ∧
      Event.setRecordingFlag ∉ (startRecording env s).trace.dropLast ∧
      (∀ b, Event.recorderStart b ∈ (startRecording env s).trace →
        Event.recorderStart b ∈ (startRecording env s).trace.dropLast) ∧
      (startRecording env s).s.recording = true) ∧
    ((startRecording env s).err = true →
      (startRecording env s).s.recording = s.recording) := by
  unfold startRecording finishStartRecording startCameraStream
  cases hst : s.streamCamera with
  | some st0 =>
    cases hrc : s.recordCamera <;>
      by_cases hsf : env.saveFileFails = true <;>
      by_cases hdm : env.displayMediaFails = true <;>
      cases hfa : st0.tracks.find? (fun t => t.isAudio) <;>
      simp_all [noFileHandleAfterPlatform, isPlatformEv, isFileHandleEv]
  | none =>
    by_cases hcn : s.currentCamera = "none" <;>
      by_cases hmn : s.currentMic = "none" <;>
      cases hrc : s.recordCamera <;>
      by_cases hsf : env.saveFileFails = true <;>
      by_cases hum : env.userMediaFails = true <;>
      by_cases hdm : env.displayMediaFails = true <;>
      simp_all [noFileHandleAfterPlatform, isPlatformEv, isFileHandleEv]

/-- C9 witness: on a successful run from the fresh state, the two file
destinations come first and the recording flag event is last. -/
theorem C9_witness :
    noFileHandleAfterPlatform (startRecording okEnv (init "c9" "m9")).trace = true ∧
    (startRecording okEnv (init "c9" "m9")).trace.take 2 =
      [Event.getFileHandle (getFilename "camera" "" okEnv.now),
       Event.getFileHandle (getFilename "screen" "" okEnv.now)] ∧
    (startRecording okEnv (init "c9" "m9")).trace.getLast? = some Event.setRecordingFlag := by
  have h := C9_ordering (init "c9" "m9") okEnv
  have h2 := h.2.1 (by decide)
  exact ⟨h.1, h2.1 rfl, h2.2.2.1⟩

/-- C10: with a camera selected but camera recording disabled and a
microphone selected, `toggleAvatar` from the hidden state acquires an
audio-only stream (video constraint omitted in the acquisition call) and
still shows the avatar preview. -/
theorem C10_audioOnlyAvatar (s : SessionState) (env : Env)
    (hAv : s.showAvatar = false) (hst : s.streamCamera = none)
    (hc : s.currentCamera ≠ "none") (hrc : s.recordCamera = false)
    (hm : s.currentMic ≠ "none") (hf : env.userMediaFails = false) :
    (toggleAvatar env s).err = false ∧
    (toggleAvatar env s).s.showAvatar = true ∧
    (toggleAvatar env s).s.streamCamera =
      some ⟨[⟨s.nextTrackId, true, s.currentMic⟩]⟩ ∧
    (toggleAvatar env s).trace =
      [Event.ensurePermissions, Event.getUserMedia none (some s.currentMic)] := by
  unfold toggleAvatar startCameraStream
  simp [hAv, hst, hc, hrc, hm, hf]

/-- C10 witness: concrete audio-only avatar preview. -/
theorem C10_witness :
    (toggleAvatar okEnv { init "cx" "mx" with recordCamera := false }).s.showAvatar = true ∧
    (toggleAvatar okEnv { init "cx" "mx" with recordCamera := false }).s.streamCamera =
      some ⟨[⟨0, true, "mx"⟩]⟩ := by
  have h := C10_audioOnlyAvatar { init "cx" "mx" with recordCamera := false } okEnv
    rfl rfl (by decide) rfl (by decide) rfl
  exact ⟨h.2.1, h.2.2.1⟩

end Recording
